import Mathlib

/-!
Verification of the hyperparameter-sweep logic of `hw5_base.py`:
the experiment-running harness that maps a flat job index into a point of a
Cartesian product of named hyperparameter ranges, names output artifacts,
and checks a sweep for missing results files.

The Python functions `exp_type_to_hyperparameters`, `check_args`,
`augment_args`, `generate_fname`, `execute_exp` (its effect skeleton) and
`check_completeness` are embedded as pure Lean functions.  Python attribute
access that can fail (`args.expt_type` on an object without that attribute)
and `assert` statements are modelled with `Except PyErr`.  Python floats are
modelled as rationals, the filesystem as a predicate `String → Bool` giving
`os.path.exists`, and the externally visible side effects of `execute_exp`
(training, experiment-tracker initialization, file writes) as an explicit
event list.
-/

namespace HW5

/-- Python-level exceptions that the modelled code can raise. -/
inductive PyErr
  | attributeError (name : String)
  | assertionError (msg : String)
  deriving DecidableEq, Repr

/-- The argparse `args` object, restricted to the fields the modelled
functions read or write.  `expt_type` is `Option` because the parser never
defines such an attribute: `none` models the attribute being absent, so that
reading it raises `AttributeError`. -/
structure Args where
  exp_type : String
  expt_type : Option String := none
  exp_index : Option Int := none
  rotation : Int := 0
  results_path : String := "results"
  lrate : ℚ := 1/1000
  spatial_dropout : Option ℚ := none
  L1_regularization : Option ℚ := none
  L2_regularization : Option ℚ := none
  cpus_per_task : Option Int := none
  nogo : Bool := false
  force : Bool := false
  render : Bool := false
  save_model : Bool := false
  batch : Int := 16
  verbose : Int := 0
  deriving DecidableEq, Repr

/-- Python `range(a, b)` as a list of integers. -/
def pyRange (a b : Int) : List Int :=
  (List.range (b - a).toNat).map (fun k => a + (k : Int))

/-- A hyperparameter set in dictionary form: named parameter ranges. -/
abbrev ParamSet := List (String × List Int)

/-- `exp_type_to_hyperparameters` from `hw5_base.py`:
`if args.exp_type == 'rnn' or args.expt_type == 'cnn':` returns
`{'rotation': range(0, 5)}`, else `assert False`.  The `or` short-circuits:
`args.expt_type` is only read when `exp_type` is not `'rnn'`, and reading it
raises `AttributeError` when the attribute is absent. -/
def exp_type_to_hyperparameters (args : Args) : Except PyErr ParamSet :=
  if args.exp_type = "rnn" then
    Except.ok [("rotation", pyRange 0 5)]
  else
    match args.expt_type with
    | none => Except.error (PyErr.attributeError "expt_type")
    | some t =>
      if t = "cnn" then
        Except.ok [("rotation", pyRange 0 5)]
      else
        Except.error (PyErr.assertionError
          ("Unrecognized exp_type (" ++ args.exp_type ++ ")"))

/-- `check_args` from `hw5_base.py`: the conjunction of its `assert`
conditions, in source order.  `true` models returning normally, `false`
models an `AssertionError`. -/
def check_args (args : Args) : Bool :=
  (match args.spatial_dropout with
   | none => true
   | some v => decide (0 < v) && decide (v < 1)) &&
  (decide (0 < args.lrate) && decide (args.lrate < 1)) &&
  (match args.L1_regularization with
   | none => true
   | some v => decide (0 < v) && decide (v < 1)) &&
  (match args.L2_regularization with
   | none => true
   | some v => decide (0 < v) && decide (v < 1)) &&
  (match args.cpus_per_task with
   | none => true
   | some n => decide (1 < n))

/-- Modelled from the spec: the `JobIterator` of the provided `job_control`
module is not under `src/`; the spec says a hyperparameter sweep is the
"enumeration of all combinations of a set of named parameter ranges" and a
job index is an "integer identifying one point in a Cartesian product of
hyperparameters".  `jobList p` enumerates the Cartesian product of the named
ranges of `p`, each point as a list of (name, value) pairs. -/
def jobList : ParamSet → List (List (String × Int))
  | [] => [[]]
  | (n, vs) :: rest => vs.flatMap (fun v => (jobList rest).map (fun c => (n, v) :: c))

/-- Modelled from the spec: `JobIterator.get_njobs`, the total number of
jobs in the Cartesian product. -/
def get_njobs (p : ParamSet) : Nat := (jobList p).length

/-- Modelled from the spec: `JobIterator.get_index`, the hyperparameter
combination at a given flat job index. -/
def get_index (p : ParamSet) (i : Nat) : List (String × Int) :=
  (jobList p).getD i []

/-- Modelled from the spec: setting a single named attribute on the args
object.  `rotation` is the only hyperparameter name this script ever
sweeps, so it is the only attribute of `Args` a combination can set. -/
def setAttr (a : Args) (nv : String × Int) : Args :=
  if nv.1 = "rotation" then { a with rotation := nv.2 } else a

/-- Modelled from the spec: the string describing a hyperparameter
combination, used inside output file names. -/
def paramString (c : List (String × Int)) : String :=
  String.join (c.map (fun nv => nv.1 ++ "_" ++ toString nv.2 ++ "_"))

/-- Modelled from the spec: `JobIterator.set_attributes_by_index` pushes the
combination at the given index onto the args object and returns the string
describing that combination. -/
def set_attributes_by_index (p : ParamSet) (i : Nat) (args : Args) :
    Args × String :=
  ((get_index p i).foldl setAttr args, paramString (get_index p i))

/-- `augment_args` from `hw5_base.py`.  Order of operations follows the
source: the hyperparameter set is computed (and can raise) before the
`exp_index is None` check; then the bounds assertion; then the attributes
are pushed.  Returns the params string together with the (mutated) args. -/
def augment_args (args : Args) : Except PyErr (String × Args) := do
  let p ← exp_type_to_hyperparameters args
  match args.exp_index with
  | none => pure ("", args)
  | some index =>
    if 0 ≤ index ∧ index < (get_njobs p : Int) then
      let r := set_attributes_by_index p index.toNat args
      pure (r.2, r.1)
    else
      Except.error (PyErr.assertionError "exp_index out of range")

/-- `generate_fname` from `hw5_base.py`: the whole parameter-encoding body
is commented out in the source; the live code returns
`f'{args.results_path}/{args.exp_type}'`, ignoring `params_str`. -/
def generate_fname (args : Args) (params_str : String) : String :=
  args.results_path ++ "/" ++ args.exp_type

/-- The neural-network object built by the external `rnn_classifier`
module (`create_simple_rnn`); model construction is delegated to that
module, so the object is opaque here. -/
inductive Model
  | rnnModel
  deriving DecidableEq, Repr

/-- `create_classifier_network` from `hw5_base.py`: for exp_type 'rnn' it
returns the externally built network; for 'cnn' it returns Python `None`;
for anything else `assert False` raises.  (The source also receives
`n_classes`, which only parametrizes the external builder.) -/
def create_classifier_network (args : Args) : Except PyErr (Option Model) :=
  if args.exp_type = "rnn" then
    Except.ok (some Model.rnnModel)
  else if args.exp_type = "cnn" then
    Except.ok none
  else
    Except.error (PyErr.assertionError
      ("unrecognized experiment type " ++ args.exp_type))

/-- Externally visible side effects of `execute_exp`: the model-plot
render, experiment-tracker (wandb) initialization, model training, and the
results / saved-model file writes. -/
inductive Event
  | writeRender (fname : String)
  | wandbInit
  | train
  | writeResults (fname : String)
  | writeModel (fname : String)
  deriving DecidableEq, Repr

/-- Effect skeleton of the part of `execute_exp` after the args have been
augmented and the batch scaled (the source is a single function; it is
split here only to factor the proofs, with `execute_exp` composing the
parts in source order).  Follows the source's control flow: build the
network (raises for an unrecognized exp_type), print the model summary
when verbose is at least 1 (`model.summary()` raises `AttributeError`
when the model is Python None, i.e. for 'cnn'), compute the file-name
base, render the model plot if requested, return early on `nogo`, return
early when the results file exists and `force` is not set, and otherwise
start the tracker run, train (`model.fit` raises `AttributeError` when
the model is None) and write the results pickle and optionally the saved
model.  The returned event list is the effect trace of a run that
completes; a raised exception discards it.  Data loading
(`load_rotation`, `create_tf_datasets`) is delegated to the external
`pfam_loader` module and contributes no event in this vocabulary. -/
def execute_exp_body (a : Args) (args_str : String) (fs : String → Bool) :
    Except PyErr (List Event) := do
  let model ← create_classifier_network a
  let _ ← (if a.verbose ≥ 1 then
      match model with
      | none => Except.error (PyErr.attributeError "summary")
      | some _ => Except.ok ()
    else Except.ok () : Except PyErr Unit)
  let fbase := generate_fname a args_str
  let fname_out := fbase ++ "_results.pkl"
  let ev0 := if a.render then [Event.writeRender (fbase ++ "_model_plot.png")] else []
  if a.nogo then
    pure ev0
  else if !a.force && fs fname_out then
    pure ev0
  else
    match model with
    | none => Except.error (PyErr.attributeError "fit")
    | some _ =>
      let ev1 := ev0 ++ [Event.wandbInit, Event.train, Event.writeResults fname_out]
      pure (if a.save_model then ev1 ++ [Event.writeModel (fbase ++ "_model")] else ev1)

/-- `execute_exp` from `hw5_base.py`.  `fs` gives `os.path.exists`.
Augment the args (may raise), scale the batch with the GPU count, then
run the body of the experiment. -/
def execute_exp (args : Args) (fs : String → Bool) (multi_gpus : Nat) :
    Except PyErr (List Event) := do
  let r ← augment_args args
  let a := if multi_gpus > 1 then
             { r.2 with batch := r.2.batch * (multi_gpus : Int) }
           else r.2
  execute_exp_body a r.1 fs

/-- One iteration of the `check_completeness` sweep: push the attributes for
index `i` onto the (threaded, mutated-in-place) args, build the results file
name, and record `i` when the file does not exist. -/
def ccStep (p : ParamSet) (fs : String → Bool) (st : Args × List Nat) (i : Nat) :
    Args × List Nat :=
  let r := set_attributes_by_index p i st.1
  let fbase := generate_fname r.1 r.2
  let fname_out := fbase ++ "_results.pkl"
  if fs fname_out then (r.1, st.2) else (r.1, st.2 ++ [i])

/-- `check_completeness` from `hw5_base.py`: iterate over all job indices of
the Cartesian product and collect those whose results file does not exist.
Returns the reported missing-index list. -/
def check_completeness (args : Args) (fs : String → Bool) :
    Except PyErr (List Nat) := do
  let p ← exp_type_to_hyperparameters args
  let r := (List.range (get_njobs p)).foldl (ccStep p fs) (args, [])
  pure r.2

/-- The hyperparameter set every recognized exp_type of this script maps
to: `{'rotation': range(0, 5)}`. -/
def rotP : ParamSet := [("rotation", pyRange 0 5)]

/-- The results-file name that `check_completeness` probes for job index
`i`, as generated from the attributes set for that index. -/
def resultsFileFor (args : Args) (i : Nat) : String :=
  generate_fname (set_attributes_by_index rotP i args).1
    (set_attributes_by_index rotP i args).2 ++ "_results.pkl"

/-! ### Helper lemmas -/

theorem exp_ok (a : Args) (h : a.exp_type = "rnn" ∨ a.expt_type = some "cnn") :
    exp_type_to_hyperparameters a = Except.ok rotP := by
  rcases h with h | h
  · simp [exp_type_to_hyperparameters, h, rotP]
  · by_cases h2 : a.exp_type = "rnn" <;> simp [exp_type_to_hyperparameters, h2, h, rotP]

theorem njobs_rotP : get_njobs rotP = 5 := rfl

theorem augment_in_range (a : Args) (i : Int)
    (h1 : a.exp_type = "rnn" ∨ a.expt_type = some "cnn") (h2 : a.exp_index = some i)
    (h3 : 0 ≤ i) (h4 : i < 5) :
    augment_args a
      = Except.ok ("rotation_" ++ toString i ++ "_", { a with rotation := i }) := by
  unfold augment_args
  conv_lhs => rw [exp_ok a h1]
  conv_lhs => rw [h2]
  show (if 0 ≤ i ∧ i < (get_njobs rotP : Int) then
        pure ((set_attributes_by_index rotP i.toNat a).2,
              (set_attributes_by_index rotP i.toNat a).1)
      else Except.error (PyErr.assertionError "exp_index out of range")
      : Except PyErr (String × Args))
    = Except.ok ("rotation_" ++ toString i ++ "_", { a with rotation := i })
  rw [if_pos ⟨h3, by rw [njobs_rotP]; exact_mod_cast h4⟩]
  interval_cases i <;> exact rfl

theorem augment_none (a : Args)
    (h1 : a.exp_type = "rnn" ∨ a.expt_type = some "cnn") (h2 : a.exp_index = none) :
    augment_args a = Except.ok ("", a) := by
  unfold augment_args
  conv_lhs => rw [exp_ok a h1]
  conv_lhs => rw [h2]
  rfl

theorem augment_out_of_range (a : Args) (i : Int)
    (h1 : a.exp_type = "rnn" ∨ a.expt_type = some "cnn") (h2 : a.exp_index = some i)
    (h3 : i < 0 ∨ 5 ≤ i) :
    augment_args a = Except.error (PyErr.assertionError "exp_index out of range") := by
  unfold augment_args
  conv_lhs => rw [exp_ok a h1]
  conv_lhs => rw [h2]
  show (if 0 ≤ i ∧ i < (get_njobs rotP : Int) then
        pure ((set_attributes_by_index rotP i.toNat a).2,
              (set_attributes_by_index rotP i.toNat a).1)
      else Except.error (PyErr.assertionError "exp_index out of range")
      : Except PyErr (String × Args))
    = Except.error (PyErr.assertionError "exp_index out of range")
  rw [if_neg]
  rw [njobs_rotP]
  omega

theorem setAttr_preserves (a : Args) (nv : String × Int) :
    (setAttr a nv).exp_type = a.exp_type
    ∧ (setAttr a nv).results_path = a.results_path
    ∧ (setAttr a nv).nogo = a.nogo
    ∧ (setAttr a nv).force = a.force
    ∧ (setAttr a nv).render = a.render
    ∧ (setAttr a nv).save_model = a.save_model
    ∧ (setAttr a nv).verbose = a.verbose := by
  unfold setAttr
  by_cases h : nv.1 = "rotation" <;> simp [h]

theorem foldl_setAttr_preserves (c : List (String × Int)) (a : Args) :
    (c.foldl setAttr a).exp_type = a.exp_type
    ∧ (c.foldl setAttr a).results_path = a.results_path
    ∧ (c.foldl setAttr a).nogo = a.nogo
    ∧ (c.foldl setAttr a).force = a.force
    ∧ (c.foldl setAttr a).render = a.render
    ∧ (c.foldl setAttr a).save_model = a.save_model
    ∧ (c.foldl setAttr a).verbose = a.verbose := by
  induction c generalizing a with
  | nil => exact ⟨rfl, rfl, rfl, rfl, rfl, rfl, rfl⟩
  | cons nv c ih =>
    have hs := setAttr_preserves a nv
    have hi := ih (setAttr a nv)
    simp only [List.foldl_cons]
    exact ⟨hi.1.trans hs.1, hi.2.1.trans hs.2.1, hi.2.2.1.trans hs.2.2.1,
           hi.2.2.2.1.trans hs.2.2.2.1, hi.2.2.2.2.1.trans hs.2.2.2.2.1,
           hi.2.2.2.2.2.1.trans hs.2.2.2.2.2.1,
           hi.2.2.2.2.2.2.trans hs.2.2.2.2.2.2⟩

theorem setAttr_rotation_congr (c : List (String × Int)) (a b : Args)
    (h : a.rotation = b.rotation) :
    (c.foldl setAttr a).rotation = (c.foldl setAttr b).rotation := by
  induction c generalizing a b with
  | nil => exact h
  | cons nv c ih =>
    simp only [List.foldl_cons]
    refine ih (setAttr a nv) (setAttr b nv) ?_
    unfold setAttr
    by_cases hn : nv.1 = "rotation" <;> simp [hn, h]

theorem augment_preserves (args a : Args) (s : String)
    (h : augment_args args = Except.ok (s, a)) :
    a.exp_type = args.exp_type
    ∧ a.results_path = args.results_path
    ∧ a.nogo = args.nogo
    ∧ a.force = args.force
    ∧ a.render = args.render
    ∧ a.save_model = args.save_model
    ∧ a.verbose = args.verbose := by
  unfold augment_args at h
  cases hp : exp_type_to_hyperparameters args with
  | error e => rw [hp] at h; exact absurd h (by simp [bind, Except.bind])
  | ok p =>
    rw [hp] at h
    simp only [bind, Except.bind] at h
    cases hidx : args.exp_index with
    | none =>
      rw [hidx] at h
      have : a = args := by
        have := congrArg (fun x => match x with
          | Except.ok (r : String × Args) => r.2
          | Except.error _ => a) h
        simpa using this.symm
      rw [this]
      exact ⟨rfl, rfl, rfl, rfl, rfl, rfl, rfl⟩
    | some i =>
      rw [hidx] at h
      replace h : (if 0 ≤ i ∧ i < (get_njobs p : Int) then
            pure ((set_attributes_by_index p i.toNat args).2,
                  (set_attributes_by_index p i.toNat args).1)
          else Except.error (PyErr.assertionError "exp_index out of range")
          : Except PyErr (String × Args)) = Except.ok (s, a) := h
      by_cases hb : 0 ≤ i ∧ i < (get_njobs p : Int)
      · rw [if_pos hb] at h
        have ha : a = (set_attributes_by_index p i.toNat args).1 := by
          have := congrArg (fun x => match x with
            | Except.ok (r : String × Args) => r.2
            | Except.error _ => a) h
          simpa using this.symm
        rw [ha]
        exact foldl_setAttr_preserves _ args
      · rw [if_neg hb] at h
        exact absurd h (by simp)

theorem ccStep_snd (fs : String → Bool) (a : Args) (acc : List Nat) (i : Nat) :
    (ccStep rotP fs (a, acc) i).2
      = (if fs (a.results_path ++ "/" ++ a.exp_type ++ "_results.pkl")
         then acc else acc ++ [i]) := by
  unfold ccStep set_attributes_by_index generate_fname
  dsimp only
  have hp := foldl_setAttr_preserves (get_index rotP i) a
  rw [hp.1, hp.2.1]
  by_cases hK : fs (a.results_path ++ "/" ++ a.exp_type ++ "_results.pkl") <;>
    simp [hK]

theorem ccStep_fst (fs : String → Bool) (a : Args) (acc : List Nat) (i : Nat) :
    (ccStep rotP fs (a, acc) i).1.exp_type = a.exp_type
    ∧ (ccStep rotP fs (a, acc) i).1.results_path = a.results_path := by
  unfold ccStep set_attributes_by_index generate_fname
  dsimp only
  have hp := foldl_setAttr_preserves (get_index rotP i) a
  rw [hp.1, hp.2.1]
  by_cases hK : fs (a.results_path ++ "/" ++ a.exp_type ++ "_results.pkl") <;>
    simp [hK, hp.1, hp.2.1]

theorem cc_fold (fs : String → Bool) (l : List Nat) (a : Args) (acc : List Nat) :
    (l.foldl (ccStep rotP fs) (a, acc)).2
      = acc ++ (if fs (a.results_path ++ "/" ++ a.exp_type ++ "_results.pkl")
                then [] else l) := by
  induction l generalizing a acc with
  | nil => simp
  | cons i l ih =>
    simp only [List.foldl_cons]
    have hstep : ccStep rotP fs (a, acc) i
        = ((ccStep rotP fs (a, acc) i).1, (ccStep rotP fs (a, acc) i).2) := rfl
    rw [hstep, ih]
    have hf := ccStep_fst fs a acc i
    rw [hf.1, hf.2, ccStep_snd]
    by_cases hK : fs (a.results_path ++ "/" ++ a.exp_type ++ "_results.pkl") <;>
      simp [hK]

theorem resultsFileFor_const (args : Args) (i : Nat) :
    resultsFileFor args i
      = args.results_path ++ "/" ++ args.exp_type ++ "_results.pkl" := by
  unfold resultsFileFor set_attributes_by_index generate_fname
  have hp := foldl_setAttr_preserves (get_index rotP i) args
  rw [hp.1, hp.2.1]

theorem check_completeness_eq (args : Args) (fs : String → Bool)
    (h : args.exp_type = "rnn" ∨ args.expt_type = some "cnn") :
    check_completeness args fs
      = Except.ok (if fs (args.results_path ++ "/" ++ args.exp_type ++ "_results.pkl")
                   then [] else List.range 5) := by
  unfold check_completeness
  conv_lhs => rw [exp_ok args h]
  show Except.ok ((List.range (get_njobs rotP)).foldl (ccStep rotP fs) (args, [])).2
      = _
  rw [njobs_rotP, cc_fold]
  rw [List.nil_append]

/-! ### Concrete argument objects used by closed theorems and witnesses -/

/-- A default rnn-experiment args object (no job index supplied). -/
def rnnArgs : Args := { exp_type := "rnn" }

/-- rnn args with job index 0 / index 1 of the sweep. -/
def argsIdx0 : Args := { exp_type := "rnn", exp_index := some 0 }

def argsIdx1 : Args := { exp_type := "rnn", exp_index := some 1 }

/-- Args with an exp_type no branch of `exp_type_to_hyperparameters`
recognizes (and, as parsed, no `expt_type` attribute). -/
def argsFoo : Args := { exp_type := "foo" }

/-- Args whose exp_type is 'cnn': the recognition test reads the
non-existent `expt_type` attribute. -/
def cnnArgs : Args := { exp_type := "cnn" }

/-! ### Claims -/

/-- C1: the claim says distinct job indices of the sweep yield distinct
output-artifact base names.  The code refutes it: `generate_fname` returns
`results_path ++ "/" ++ exp_type`, ignoring the job parameters, so indices
0 and 1 of the rnn sweep (which set rotation 0 and rotation 1 respectively)
produce the very same base name — contradicting the function's own
docstring ("This way, they are unique"). -/
theorem claim_C1 :
    augment_args argsIdx0
      = Except.ok ("rotation_0_", { argsIdx0 with rotation := 0 })
    ∧ augment_args argsIdx1
      = Except.ok ("rotation_1_", { argsIdx1 with rotation := 1 })
    ∧ generate_fname { argsIdx0 with rotation := 0 } "rotation_0_"
      = generate_fname { argsIdx1 with rotation := 1 } "rotation_1_" :=
  ⟨rfl, rfl, rfl⟩

/-- C2: for a recognized exp_type and an in-range job index `i`,
`augment_args` sets the args attributes to exactly the hyperparameter
combination at index `i` of the Cartesian product (`rotation := i`) and
returns the parameter string describing it; the index-to-combination map is
injective on `{0, ..., njobs-1}` and its image is exactly the Cartesian
product of the named parameter ranges. -/
theorem claim_C2 (args : Args) (i : Int)
    (h1 : args.exp_type = "rnn" ∨ args.expt_type = some "cnn")
    (h2 : args.exp_index = some i) (h3 : 0 ≤ i)
    (h4 : i < (get_njobs rotP : Int)) :
    get_index rotP i.toNat = [("rotation", i)]
    ∧ augment_args args
        = Except.ok ("rotation_" ++ toString i ++ "_", { args with rotation := i })
    ∧ Function.Injective (fun k : Fin (get_njobs rotP) => get_index rotP k)
    ∧ (∀ c, c ∈ jobList rotP ↔ ∃ v : Int, 0 ≤ v ∧ v < 5 ∧ c = [("rotation", v)]) := by
  have h4' : i < 5 := by
    rw [njobs_rotP] at h4
    exact_mod_cast h4
  refine ⟨?_, augment_in_range args i h1 h2 h3 h4', by decide, ?_⟩
  · interval_cases i <;> rfl
  · intro c
    have hjl : jobList rotP = [[("rotation", 0)], [("rotation", 1)],
        [("rotation", 2)], [("rotation", 3)], [("rotation", 4)]] := rfl
    rw [hjl]
    constructor
    · intro hc
      simp only [List.mem_cons, List.not_mem_nil, or_false] at hc
      rcases hc with h | h | h | h | h
      · exact ⟨0, by norm_num, by norm_num, h⟩
      · exact ⟨1, by norm_num, by norm_num, h⟩
      · exact ⟨2, by norm_num, by norm_num, h⟩
      · exact ⟨3, by norm_num, by norm_num, h⟩
      · exact ⟨4, by norm_num, by norm_num, h⟩
    · rintro ⟨v, hv0, hv5, rfl⟩
      interval_cases v <;> simp

/-- C4: for a recognized exp_type and a supplied job index `i`,
`augment_args` fails with an `AssertionError` exactly when `i` is negative
or at least the total number of jobs of the Cartesian product; for every
in-range index no assertion fails. -/
theorem claim_C4 (args : Args) (i : Int)
    (h1 : args.exp_type = "rnn" ∨ args.expt_type = some "cnn")
    (h2 : args.exp_index = some i) :
    (∃ msg, augment_args args = Except.error (PyErr.assertionError msg))
      ↔ (i < 0 ∨ (get_njobs rotP : Int) ≤ i) := by
  rw [njobs_rotP]
  constructor
  · rintro ⟨msg, hmsg⟩
    by_contra hc
    push_neg at hc
    rw [augment_in_range args i h1 h2 hc.1 (by exact_mod_cast hc.2)] at hmsg
    exact absurd hmsg (by simp)
  · intro hc
    refine ⟨"exp_index out of range", augment_out_of_range args i h1 h2 ?_⟩
    rcases hc with hc | hc
    · exact Or.inl hc
    · exact Or.inr (by exact_mod_cast hc)

/-- C6: every recognized exp_type maps to the hyperparameter set
`{'rotation': range(0, 5)}`; the sweep's total job count is 5, which is the
product of the sizes of the named ranges, and the enumerated combinations
are precisely the members of that Cartesian product. -/
theorem claim_C6 (args : Args)
    (h : args.exp_type = "rnn" ∨ args.expt_type = some "cnn") :
    exp_type_to_hyperparameters args = Except.ok rotP
    ∧ get_njobs rotP = 5
    ∧ get_njobs rotP = (rotP.map (fun nv => nv.2.length)).prod
    ∧ jobList rotP = [[("rotation", 0)], [("rotation", 1)], [("rotation", 2)],
        [("rotation", 3)], [("rotation", 4)]] :=
  ⟨exp_ok args h, rfl, rfl, rfl⟩

/-- C8 counterexample: the claim says `augment_args` returns the empty
string for EVERY args with `exp_index = None`, but `augment_args` computes
the hyperparameter set before the None check, so an unrecognized exp_type
raises even when no job index is supplied.  Here: exp_type 'foo' with no
`expt_type` attribute raises `AttributeError`. -/
theorem claim_C8_counterexample :
    argsFoo.exp_index = none
    ∧ augment_args argsFoo = Except.error (PyErr.attributeError "expt_type")
    ∧ augment_args argsFoo ≠ Except.ok ("", argsFoo) := by
  refine ⟨rfl, rfl, ?_⟩
  intro hcon
  have h2 : (Except.error (PyErr.attributeError "expt_type")
      : Except PyErr (String × Args)) = Except.ok ("", argsFoo) := hcon
  cases h2

/-- C8 (amended): for every args whose `exp_index` is None AND whose
exp_type is recognized (exp_type = 'rnn' or the `expt_type` attribute
equals 'cnn'), `augment_args` returns the empty string and leaves every
attribute of args unchanged. -/
theorem claim_C8 (args : Args)
    (h1 : args.exp_type = "rnn" ∨ args.expt_type = some "cnn")
    (h2 : args.exp_index = none) :
    augment_args args = Except.ok ("", args) :=
  augment_none args h1 h2

theorem claim_C8_witness : augment_args rnnArgs = Except.ok ("", rnnArgs) :=
  claim_C8 rnnArgs (Or.inl rfl) rfl

/-- C9: `check_args` returns normally exactly when lrate lies strictly
between 0 and 1, each of spatial_dropout, L1_regularization and
L2_regularization is None or strictly between 0 and 1, and cpus_per_task
is None or strictly greater than 1 (so cpus_per_task = 1 is rejected). -/
theorem claim_C9 (args : Args) :
    check_args args = true ↔
      ((0 < args.lrate ∧ args.lrate < 1)
       ∧ (args.spatial_dropout = none
          ∨ ∃ v, args.spatial_dropout = some v ∧ 0 < v ∧ v < 1)
       ∧ (args.L1_regularization = none
          ∨ ∃ v, args.L1_regularization = some v ∧ 0 < v ∧ v < 1)
       ∧ (args.L2_regularization = none
          ∨ ∃ v, args.L2_regularization = some v ∧ 0 < v ∧ v < 1)
       ∧ (args.cpus_per_task = none
          ∨ ∃ n, args.cpus_per_task = some n ∧ 1 < n)) := by
  unfold check_args
  rcases hs : args.spatial_dropout with _ | v1 <;>
  rcases h1 : args.L1_regularization with _ | v2 <;>
  rcases h2 : args.L2_regularization with _ | v3 <;>
  rcases hc : args.cpus_per_task with _ | n <;>
    simp [hs, h1, h2, hc, Bool.and_eq_true, decide_eq_true_eq] <;>
    tauto

/-- C10: for args with exp_type 'cnn' and no `expt_type` attribute,
`exp_type_to_hyperparameters` raises `AttributeError` (not an
"Unrecognized exp_type" assertion failure, and it returns no set); it
returns `{'rotation': range(0, 5)}` exactly when exp_type is 'rnn' or the
separate `expt_type` attribute is 'cnn'. -/
theorem claim_C10 (args : Args) (h1 : args.exp_type = "cnn")
    (h2 : args.expt_type = none) :
    exp_type_to_hyperparameters args = Except.error (PyErr.attributeError "expt_type")
    ∧ ∀ b : Args, exp_type_to_hyperparameters b = Except.ok rotP
        ↔ (b.exp_type = "rnn" ∨ b.expt_type = some "cnn") := by
  constructor
  · unfold exp_type_to_hyperparameters
    rw [h1, h2]
    simp
  · intro b
    constructor
    · intro hb
      unfold exp_type_to_hyperparameters at hb
      by_cases he : b.exp_type = "rnn"
      · exact Or.inl he
      · rw [if_neg he] at hb
        rcases ht : b.expt_type with _ | t
        · rw [ht] at hb; cases hb
        · rw [ht] at hb
          replace hb : (if t = "cnn" then Except.ok [("rotation", pyRange 0 5)]
              else Except.error (PyErr.assertionError
                ("Unrecognized exp_type (" ++ b.exp_type ++ ")"))) = Except.ok rotP := hb
          by_cases htc : t = "cnn"
          · exact Or.inr (by rw [htc])
          · rw [if_neg htc] at hb; cases hb
    · exact exp_ok b

theorem claim_C10_witness :
    exp_type_to_hyperparameters cnnArgs
      = Except.error (PyErr.attributeError "expt_type") :=
  (claim_C10 cnnArgs rfl rfl).1

/-! ### Further helpers for C3, C5, C7 -/

theorem exp_congr (a b : Args) (h1 : a.exp_type = b.exp_type)
    (h2 : a.expt_type = b.expt_type) :
    exp_type_to_hyperparameters a = exp_type_to_hyperparameters b := by
  unfold exp_type_to_hyperparameters
  rw [h1, h2]

theorem exp_ok_inv (b : Args) (p : ParamSet)
    (hb : exp_type_to_hyperparameters b = Except.ok p) :
    p = rotP ∧ (b.exp_type = "rnn" ∨ b.expt_type = some "cnn") := by
  unfold exp_type_to_hyperparameters at hb
  by_cases he : b.exp_type = "rnn"
  · rw [if_pos he] at hb
    injection hb with h
    exact ⟨h.symm, Or.inl he⟩
  · rw [if_neg he] at hb
    rcases ht : b.expt_type with _ | t
    · rw [ht] at hb; cases hb
    · rw [ht] at hb
      replace hb : (if t = "cnn" then Except.ok [("rotation", pyRange 0 5)]
          else Except.error (PyErr.assertionError
            ("Unrecognized exp_type (" ++ b.exp_type ++ ")"))) = Except.ok p := hb
      by_cases htc : t = "cnn"
      · rw [if_pos htc] at hb
        injection hb with h
        exact ⟨h.symm, Or.inr (by rw [htc])⟩
      · rw [if_neg htc] at hb; cases hb

theorem augment_err (x : Args) (e : PyErr)
    (h : exp_type_to_hyperparameters x = Except.error e) :
    augment_args x = Except.error e := by
  unfold augment_args
  rw [h]
  rfl

/-! ### Remaining claims -/

/-- C3: `check_completeness` iterates over every job index from 0 to
njobs-1 and the reported missing list holds exactly those indices whose
results file (the generated base name followed by `_results.pkl`) does not
exist: an index is absent from the list iff its results file exists. -/
theorem claim_C3 (args : Args) (fs : String → Bool)
    (h : args.exp_type = "rnn" ∨ args.expt_type = some "cnn") :
    ∃ missing, check_completeness args fs = Except.ok missing
      ∧ ∀ i : Nat, i ∈ missing
          ↔ (i < get_njobs rotP ∧ fs (resultsFileFor args i) = false) := by
  refine ⟨_, check_completeness_eq args fs h, ?_⟩
  intro i
  rw [resultsFileFor_const, njobs_rotP]
  by_cases hK : fs (args.results_path ++ "/" ++ args.exp_type ++ "_results.pkl") <;>
    simp [hK, List.mem_range]

/-- The filesystem with no results file present, used as a witness. -/
def fsEmpty : String → Bool := fun _ => false

theorem claim_C3_witness :
    ∃ missing, check_completeness rnnArgs fsEmpty = Except.ok missing
      ∧ ∀ i : Nat, i ∈ missing
          ↔ (i < get_njobs rotP ∧ fsEmpty (resultsFileFor rnnArgs i) = false) :=
  claim_C3 rnnArgs fsEmpty (Or.inl rfl)

/-- rnn args with the render flag set. -/
def argsRender : Args := { exp_type := "rnn", render := true }

/-- The filesystem where exactly the rnn results file exists. -/
def fsHat : String → Bool := fun s => s == "results/rnn_results.pkl"

/-- C5 counterexample: the claim says that with the results file present,
force unset and nogo unset, `execute_exp` leaves the filesystem unchanged.
With the render flag set, the model-plot image is written before the
already-exists check, so the effect list is not empty. -/
theorem claim_C5_counterexample :
    argsRender.nogo = false ∧ argsRender.force = false
    ∧ fsHat (generate_fname argsRender "" ++ "_results.pkl") = true
    ∧ execute_exp argsRender fsHat 0
        = Except.ok [Event.writeRender "results/rnn_model_plot.png"]
    ∧ execute_exp argsRender fsHat 0 ≠ Except.ok [] := by
  refine ⟨rfl, rfl, rfl, rfl, ?_⟩
  intro hcon
  exact absurd (show (Except.ok [Event.writeRender "results/rnn_model_plot.png"]
      : Except PyErr (List Event)) = Except.ok [] from hcon) (by simp)

theorem execute_exp_body_early (a : Args) (args_str : String) (fs : String → Bool)
    (hnogo : a.nogo = false) (hforce : a.force = false) (hrender : a.render = false)
    (hnet : a.exp_type = "rnn" ∨ (a.exp_type = "cnn" ∧ a.verbose < 1))
    (hfs : fs (a.results_path ++ "/" ++ a.exp_type ++ "_results.pkl") = true) :
    execute_exp_body a args_str fs = Except.ok [] := by
  unfold execute_exp_body
  rcases hnet with hrnn | ⟨hcnn, hv⟩
  · have hc : create_classifier_network a = Except.ok (some Model.rnnModel) := by
      unfold create_classifier_network
      rw [hrnn]
      simp
    conv_lhs => rw [hc]
    show ((if a.verbose ≥ 1 then Except.ok () else (Except.ok () : Except PyErr Unit))
        >>= fun _ =>
          (if a.nogo then
            pure (if a.render then
              [Event.writeRender (generate_fname a args_str ++ "_model_plot.png")]
              else [])
          else if !a.force && fs (generate_fname a args_str ++ "_results.pkl") then
            pure (if a.render then
              [Event.writeRender (generate_fname a args_str ++ "_model_plot.png")]
              else [])
          else
            pure (if a.save_model then
              ((if a.render then
                [Event.writeRender (generate_fname a args_str ++ "_model_plot.png")]
                else [])
               ++ [Event.wandbInit, Event.train,
                   Event.writeResults (generate_fname a args_str ++ "_results.pkl")])
              ++ [Event.writeModel (generate_fname a args_str ++ "_model")]
            else
              (if a.render then
                [Event.writeRender (generate_fname a args_str ++ "_model_plot.png")]
                else [])
              ++ [Event.wandbInit, Event.train,
                  Event.writeResults (generate_fname a args_str ++ "_results.pkl")])
          : Except PyErr (List Event)))
      = Except.ok []
    rw [ite_self]
    show (if a.nogo then
            pure (if a.render then
              [Event.writeRender (generate_fname a args_str ++ "_model_plot.png")]
              else [])
          else if !a.force && fs (generate_fname a args_str ++ "_results.pkl") then
            pure (if a.render then
              [Event.writeRender (generate_fname a args_str ++ "_model_plot.png")]
              else [])
          else
            pure (if a.save_model then
              ((if a.render then
                [Event.writeRender (generate_fname a args_str ++ "_model_plot.png")]
                else [])
               ++ [Event.wandbInit, Event.train,
                   Event.writeResults (generate_fname a args_str ++ "_results.pkl")])
              ++ [Event.writeModel (generate_fname a args_str ++ "_model")]
            else
              (if a.render then
                [Event.writeRender (generate_fname a args_str ++ "_model_plot.png")]
                else [])
              ++ [Event.wandbInit, Event.train,
                  Event.writeResults (generate_fname a args_str ++ "_results.pkl")])
          : Except PyErr (List Event))
      = Except.ok []
    rw [hnogo, hforce, hrender]
    simp only [generate_fname, Bool.false_eq_true, if_false, Bool.not_false,
      Bool.true_and, hfs, if_true]
    rfl
  · have hc : create_classifier_network a = Except.ok none := by
      unfold create_classifier_network
      rw [hcnn]
      simp
    conv_lhs => rw [hc]
    show ((if a.verbose ≥ 1 then Except.error (PyErr.attributeError "summary")
           else (Except.ok () : Except PyErr Unit))
        >>= fun _ =>
          (if a.nogo then
            pure (if a.render then
              [Event.writeRender (generate_fname a args_str ++ "_model_plot.png")]
              else [])
          else if !a.force && fs (generate_fname a args_str ++ "_results.pkl") then
            pure (if a.render then
              [Event.writeRender (generate_fname a args_str ++ "_model_plot.png")]
              else [])
          else
            Except.error (PyErr.attributeError "fit")
          : Except PyErr (List Event)))
      = Except.ok []
    rw [if_neg (by omega : ¬ a.verbose ≥ 1)]
    show (if a.nogo then
            pure (if a.render then
              [Event.writeRender (generate_fname a args_str ++ "_model_plot.png")]
              else [])
          else if !a.force && fs (generate_fname a args_str ++ "_results.pkl") then
            pure (if a.render then
              [Event.writeRender (generate_fname a args_str ++ "_model_plot.png")]
              else [])
          else
            Except.error (PyErr.attributeError "fit")
          : Except PyErr (List Event))
      = Except.ok []
    rw [hnogo, hforce, hrender]
    simp only [generate_fname, Bool.false_eq_true, if_false, Bool.not_false,
      Bool.true_and, hfs, if_true]
    rfl

/-- C5 (amended): if the results file for the configured experiment exists,
the force flag is not set, the nogo flag is not set, AND the render flag is
not set, then `execute_exp` returns early with no externally visible
effects: no training, no experiment-tracking run, no file writes.  The
hypotheses on exp_type and verbose are what the run needs to reach the
already-exists check at all: any other exp_type fails the assertion in
`create_classifier_network`, and for 'cnn' (whose model is Python None)
verbosity of 1 or more crashes in `model.summary()` first. -/
theorem claim_C5 (args : Args) (fs : String → Bool) (m : Nat) (s : String)
    (a : Args) (haug : augment_args args = Except.ok (s, a))
    (hnogo : args.nogo = false) (hforce : args.force = false)
    (hrender : args.render = false)
    (hnet : args.exp_type = "rnn" ∨ (args.exp_type = "cnn" ∧ args.verbose < 1))
    (hfs : fs (args.results_path ++ "/" ++ args.exp_type ++ "_results.pkl") = true) :
    execute_exp args fs m = Except.ok [] := by
  have hp := augment_preserves args a s haug
  unfold execute_exp
  conv_lhs => rw [haug]
  show execute_exp_body
      (if m > 1 then { a with batch := a.batch * (m : Int) } else a) s fs
    = Except.ok []
  have hfield : ((if m > 1 then { a with batch := a.batch * (m : Int) }
        else a) : Args).nogo = false
      ∧ ((if m > 1 then { a with batch := a.batch * (m : Int) }
        else a) : Args).force = false
      ∧ ((if m > 1 then { a with batch := a.batch * (m : Int) }
        else a) : Args).render = false
      ∧ ((if m > 1 then { a with batch := a.batch * (m : Int) }
        else a) : Args).results_path = args.results_path
      ∧ ((if m > 1 then { a with batch := a.batch * (m : Int) }
        else a) : Args).exp_type = args.exp_type
      ∧ ((if m > 1 then { a with batch := a.batch * (m : Int) }
        else a) : Args).verbose = args.verbose := by
    by_cases hm : m > 1
    · rw [if_pos hm]
      exact ⟨hp.2.2.1.trans hnogo, hp.2.2.2.1.trans hforce,
             hp.2.2.2.2.1.trans hrender, hp.2.1, hp.1, hp.2.2.2.2.2.2⟩
    · rw [if_neg hm]
      exact ⟨hp.2.2.1.trans hnogo, hp.2.2.2.1.trans hforce,
             hp.2.2.2.2.1.trans hrender, hp.2.1, hp.1, hp.2.2.2.2.2.2⟩
  obtain ⟨hn, hf, hr, hrp, het, hvb⟩ := hfield
  apply execute_exp_body_early _ _ _ hn hf hr
  · rw [het, hvb]
    exact hnet
  · rw [hrp, het]
    exact hfs

theorem claim_C5_witness : execute_exp rnnArgs fsHat 0 = Except.ok [] :=
  claim_C5 rnnArgs fsHat 0 "" rnnArgs rfl rfl rfl rfl (Or.inl rfl) rfl

/-- C7: the job-index arithmetic is deterministic: two invocations with
identical values of the arguments read by the conversion (exp_type,
expt_type, exp_index, rotation) produce identical parameter strings and
identical attribute (rotation) assignments, and identical results_path and
exp_type give identical generated file names. -/
theorem claim_C7 (a b : Args) (s t : String)
    (h1 : a.exp_type = b.exp_type) (h2 : a.expt_type = b.expt_type)
    (h3 : a.exp_index = b.exp_index) (h4 : a.rotation = b.rotation)
    (h5 : a.results_path = b.results_path) (h6 : s = t) :
    Except.map (fun r => (r.1, r.2.rotation)) (augment_args a)
      = Except.map (fun r => (r.1, r.2.rotation)) (augment_args b)
    ∧ generate_fname a s = generate_fname b t := by
  refine ⟨?_, by unfold generate_fname; rw [h5, h1]⟩
  have hexp := exp_congr a b h1 h2
  cases hp : exp_type_to_hyperparameters a with
  | error e =>
    rw [augment_err a e hp, augment_err b e (hexp ▸ hp)]
  | ok p =>
    obtain ⟨hpp, hrec⟩ := exp_ok_inv a p hp
    have hrecb : b.exp_type = "rnn" ∨ b.expt_type = some "cnn" := by
      rcases hrec with h | h
      · exact Or.inl (by rw [← h1]; exact h)
      · exact Or.inr (by rw [← h2]; exact h)
    cases hidx : a.exp_index with
    | none =>
      rw [augment_none a hrec hidx, augment_none b hrecb (by rw [← h3]; exact hidx)]
      simp [Except.map, h4]
    | some i =>
      by_cases hbnd : 0 ≤ i ∧ i < 5
      · rw [augment_in_range a i hrec hidx hbnd.1 hbnd.2,
            augment_in_range b i hrecb (by rw [← h3]; exact hidx) hbnd.1 hbnd.2]
        simp [Except.map]
      · rw [augment_out_of_range a i hrec hidx (by omega),
            augment_out_of_range b i hrecb (by rw [← h3]; exact hidx) (by omega)]

/-- rnn args with job index 2, and a copy differing only in the learning
rate, used as the C7 witness inputs. -/
def wArgs2 : Args := { exp_type := "rnn", exp_index := some 2 }

def wArgs2' : Args := { exp_type := "rnn", exp_index := some 2, lrate := 1/2 }

theorem claim_C7_witness :
    Except.map (fun r => (r.1, r.2.rotation)) (augment_args wArgs2)
      = Except.map (fun r => (r.1, r.2.rotation)) (augment_args wArgs2')
    ∧ generate_fname wArgs2 "x" = generate_fname wArgs2' "x" :=
  claim_C7 wArgs2 wArgs2' "x" "x" rfl rfl rfl rfl rfl rfl

/-- rnn args with job index 3, used as the C2 witness input. -/
def wArgs3 : Args := { exp_type := "rnn", exp_index := some 3 }

theorem claim_C2_witness :
    get_index rotP (Int.toNat 3) = [("rotation", 3)]
    ∧ augment_args wArgs3
        = Except.ok ("rotation_" ++ toString (3 : Int) ++ "_",
            { wArgs3 with rotation := 3 })
    ∧ Function.Injective (fun k : Fin (get_njobs rotP) => get_index rotP k)
    ∧ (∀ c, c ∈ jobList rotP ↔ ∃ v : Int, 0 ≤ v ∧ v < 5 ∧ c = [("rotation", v)]) :=
  claim_C2 wArgs3 3 (Or.inl rfl) rfl (by norm_num) (by rw [njobs_rotP]; norm_num)

/-- rnn args with out-of-range job index 7, used as the C4 witness input. -/
def wArgs7 : Args := { exp_type := "rnn", exp_index := some 7 }

theorem claim_C4_witness :
    (∃ msg, augment_args wArgs7 = Except.error (PyErr.assertionError msg))
      ↔ ((7 : Int) < 0 ∨ (get_njobs rotP : Int) ≤ 7) :=
  claim_C4 wArgs7 7 (Or.inl rfl) rfl

theorem claim_C6_witness :
    exp_type_to_hyperparameters rnnArgs = Except.ok rotP
    ∧ get_njobs rotP = 5
    ∧ get_njobs rotP = (rotP.map (fun nv => nv.2.length)).prod
    ∧ jobList rotP = [[("rotation", 0)], [("rotation", 1)], [("rotation", 2)],
        [("rotation", 3)], [("rotation", 4)]] :=
  claim_C6 rnnArgs (Or.inl rfl)

end HW5
